import Mathlib

/-!
Verification of the patch-application core of `roocodez`
(`src/roocodez/tools/apply_diff.py`), as a shallow embedding in Lean 4.

The embedded functions mirror the Python source:
* `pySplitlines` / `splitlinesKeepends` model `str.splitlines(keepends=True)`
  as used on lines 70-71 of `apply_diff.py`;
* `pyReplace` models Python `str.replace` for a non-empty pattern and
  `unescapeHtmlEntitiesMock` models `unescape_html_entities_mock`;
* `applyDiffStub` models `apply_diff_stub`;
* `applyDiffFunction` models the pure core of `apply_diff_function`,
  with the target file represented as `Option String`
  (`none` = the file does not exist, `some s` = file with content `s`);
  reads and writes are modelled as succeeding atomically.
-/

namespace Roocodez

/-- The characters Python `str.splitlines` treats as line boundaries:
LF, CR (a CR LF pair counts as one boundary), VT, FF, FS, GS, RS, NEL,
LINE SEPARATOR and PARAGRAPH SEPARATOR. -/
def isLineBreak (c : Char) : Bool :=
  c == Char.ofNat 0x0A || c == Char.ofNat 0x0D || c == Char.ofNat 0x0B ||
  c == Char.ofNat 0x0C || c == Char.ofNat 0x1C || c == Char.ofNat 0x1D ||
  c == Char.ofNat 0x1E || c == Char.ofNat 0x85 || c == Char.ofNat 0x2028 ||
  c == Char.ofNat 0x2029

/-- Python `str.splitlines(keepends=True)` on a list of characters:
each line keeps its terminator, a final unterminated line is kept,
and the empty text yields no lines. -/
def pySplitlines : List Char → List (List Char)
  | [] => []
  | '\r' :: '\n' :: rest => ['\r', '\n'] :: pySplitlines rest
  | c :: rest =>
    if isLineBreak c then
      [c] :: pySplitlines rest
    else
      match pySplitlines rest with
      | [] => [[c]]
      | l :: ls => (c :: l) :: ls

/-- `s.splitlines(keepends=True)` at the `String` level (lines 70-71 of
`apply_diff.py`). -/
def splitlinesKeepends (s : String) : List String :=
  (pySplitlines s.data).map String.mk

set_option maxHeartbeats 1000000 in
/-- Concatenating the lines produced by `pySplitlines` restores the input. -/
theorem pySplitlines_flatten (x : List Char) : (pySplitlines x).flatten = x := by
  induction x using pySplitlines.induct with
  | case1 => rfl
  | case2 rest ih =>
    rw [show pySplitlines ('\r' :: '\n' :: rest) = ['\r', '\n'] :: pySplitlines rest from rfl]
    simp [ih]
  | case3 c rest hcr hb ih =>
    rw [pySplitlines.eq_3 c rest hcr, if_pos hb]
    simp [ih]
  | case4 c rest hcr hb hnil ih =>
    rw [pySplitlines.eq_3 c rest hcr, if_neg hb, hnil]
    rw [hnil] at ih
    simp at ih
    simp [ih]
  | case5 c rest hcr hb l ls hcons ih =>
    rw [pySplitlines.eq_3 c rest hcr, if_neg hb, hcons]
    rw [hcons] at ih
    simp at ih ⊢
    exact ih

/-- Joining `String.mk` pieces is `String.mk` of the flattened pieces. -/
theorem join_map_mk (ls : List (List Char)) :
    String.join (ls.map String.mk) = String.mk ls.flatten := by
  rw [String.join_eq]
  congr 1
  rw [List.map_map]
  have h : String.data ∘ String.mk = id := rfl
  rw [h, List.map_id]

/-- Python `str.replace` scanning left to right (fuel-based so that it is
structurally recursive; the fuel is always instantiated with the text's
length, which bounds the number of scan steps). -/
def pyReplaceAux (pat rep : List Char) : Nat → List Char → List Char
  | _, [] => []
  | 0, l => l
  | fuel + 1, c :: rest =>
    if pat.isPrefixOf (c :: rest) then
      rep ++ pyReplaceAux pat rep fuel ((c :: rest).drop pat.length)
    else
      c :: pyReplaceAux pat rep fuel rest

/-- Python `text.replace(pat, rep)` for the non-empty patterns used by
`unescape_html_entities_mock` (every call site passes a non-empty literal;
the empty-pattern guard keeps the function total). -/
def pyReplace (s pat rep : List Char) : List Char :=
  if pat = [] then s else pyReplaceAux pat rep s.length s

/-- `unescape_html_entities_mock` (line 34 of `apply_diff.py`): sequential
textual replacement of the five HTML entities. -/
def unescapeHtmlEntitiesMock (text : String) : String :=
  String.mk
    (pyReplace
      (pyReplace
        (pyReplace
          (pyReplace
            (pyReplace text.data "&lt;".data "<".data)
            "&gt;".data ">".data)
          "&amp;".data "&".data)
        "&quot;".data "\x22".data)
      "&#39;".data "\x27".data)

/-- Result record of `apply_diff_stub`, modelling the Python class
`DiffApplicationResult` (its `details` and `fail_parts` fields are never
set by the stub and are omitted). -/
structure DiffApplicationResult where
  success : Bool
  content : Option String
  error : Option String
deriving DecidableEq, Repr

/-- `apply_diff_stub` (lines 58-157 of `apply_diff.py`).

The Python body splits both texts into lines, fails when `start_line` is
`None`, fails when `start_line - 1` is outside `[0, len(original_lines)]`,
computes `result_lines` (dead code: the value is never used afterwards),
and finally returns `DiffApplicationResult(success=True,
content=diff_content)` — the diff text verbatim. -/
def applyDiffStub (original_content diff_content : String) :
    Option Int → DiffApplicationResult
  | none =>
    { success := false, content := none,
      error := some "`start_line` is required for this simplified diff stub." }
  | some sl =>
    let original_lines := splitlinesKeepends original_content
    let new_lines := splitlinesKeepends diff_content
    let start_idx : Int := sl - 1
    if 0 ≤ start_idx ∧ start_idx ≤ (original_lines.length : Int) then
      let _result_lines := original_lines.take start_idx.toNat ++ new_lines
      { success := true, content := some diff_content, error := none }
    else
      { success := false, content := none,
        error := some ("Invalid start_line " ++ toString sl ++ ". Line out of bounds.") }

/-- The pure core of `apply_diff_function` (lines 210-270 of
`apply_diff.py`) as a transition on the target file's state.

Input `file` is the state of the file at `path` (`none` = absent).
Output is the returned message together with the file's state after the
call.  The Python steps modelled: existence check; read; HTML-entity
unescaping of the diff; `apply_diff_stub`; on stub failure return an error
without writing; on stub success write `diff_result.content` (always set
by the stub on success; `getD ""` is a harmless total-function default). -/
def applyDiffFunction (path diff : String) (start_line : Option Int) :
    Option String → String × Option String
  | none =>
    ("Error: File does not exist at path: " ++ path ++
      ". Please verify the file path and try again.", none)
  | some original_content =>
    let processed_diff := unescapeHtmlEntitiesMock diff
    let diff_result := applyDiffStub original_content processed_diff start_line
    if diff_result.success then
      ("Successfully applied changes to file: " ++ path ++ ".",
        some (diff_result.content.getD ""))
    else
      ("Error: Unable to apply diff to file: " ++ path ++ ".",
        some original_content)

/-- On success the stub's `content` is exactly the diff text it was given. -/
theorem applyDiffStub_success_content (o d : String) (sl : Option Int)
    (h : (applyDiffStub o d sl).success = true) :
    (applyDiffStub o d sl).content = some d := by
  cases sl with
  | none => simp [applyDiffStub] at h
  | some n =>
    simp only [applyDiffStub] at h ⊢
    by_cases hc : 0 ≤ n - 1 ∧ n - 1 ≤ ((splitlinesKeepends o).length : Int)
    · rw [if_pos hc]
    · rw [if_neg hc] at h
      simp at h

/-- For an in-range `start_line`, the stub succeeds and its `content` is the
diff text verbatim, regardless of the original content. -/
theorem applyDiffStub_in_range (o d : String) (n : Int)
    (h1 : 1 ≤ n) (h2 : n ≤ ((splitlinesKeepends o).length : Int) + 1) :
    applyDiffStub o d (some n) =
      { success := true, content := some d, error := none } := by
  have hc : 0 ≤ n - 1 ∧ n - 1 ≤ ((splitlinesKeepends o).length : Int) := by omega
  simp only [applyDiffStub]
  rw [if_pos hc]


/-- C1: for original `"a\nb\nc\n"` and the one-hunk patch that removes
`"b\n"` at line 2 and inserts `"B\n"`, the spec requires result
`"a\nB\nc\n"`; the code instead succeeds with the diff text itself as the
whole new content, so the claimed patch semantics do not hold. -/
theorem c1_stub_does_not_patch :
    applyDiffStub "a\nb\nc\n" "-b\n+B\n" (some 2) =
      { success := true, content := some "-b\n+B\n", error := none } ∧
    ("-b\n+B\n" : String) ≠ "a\nB\nc\n" := by decide

/-- C2: the apply operation is atomic on the target file: every call
either leaves the file state exactly unchanged (all failure paths return
before the write), or the stub succeeded and the single final content
string — the unescaped diff — is written. -/
theorem c2_apply_operation_atomic (path diff : String) (sl : Option Int)
    (file : Option String) :
    (applyDiffFunction path diff sl file).2 = file ∨
    ∃ original, file = some original ∧
      (applyDiffStub original (unescapeHtmlEntitiesMock diff) sl).success = true ∧
      (applyDiffFunction path diff sl file).2 =
        some (unescapeHtmlEntitiesMock diff) := by
  cases file with
  | none => left; rfl
  | some original =>
    by_cases h :
        (applyDiffStub original (unescapeHtmlEntitiesMock diff) sl).success = true
    · right
      refine ⟨original, rfl, h, ?_⟩
      simp only [applyDiffFunction, h, if_pos]
      rw [applyDiffStub_success_content _ _ _ h]
      rfl
    · left
      simp only [applyDiffFunction]
      rw [if_neg h]

/-- C3: the patch that removes `"b\n"` at line 2, applied to
`"a\nX\nc\n"` (line 2 differs), is claimed to fail with `ContextMismatch`
and leave the file unmodified; the code instead succeeds and overwrites
the file with the raw diff text — no context comparison exists. -/
theorem c3_no_context_mismatch_detection :
    (applyDiffStub "a\nX\nc\n" "-b\n+B\n" (some 2)).success = true ∧
    (applyDiffFunction "f.txt" "-b\n+B\n" (some 2) (some "a\nX\nc\n")).2 =
      some "-b\n+B\n" := by decide

/-- C4: an empty patch is claimed to be a no-op returning the original
content; the code instead returns the empty diff text as the new content
(erasing the file `"a\n"`), and fails outright when `start_line` is
absent. -/
theorem c4_empty_patch_not_noop :
    applyDiffStub "a\n" "" (some 1) =
      { success := true, content := some "", error := none } ∧
    (applyDiffFunction "f.txt" "" (some 1) (some "a\n")).2 = some "" ∧
    (some "" : Option String) ≠ some "a\n" ∧
    (applyDiffStub "a\n" "" none).success = false := by decide

/-- C5: a patch with two hunks whose line ranges intersect is claimed to
fail with `OverlappingHunks`; the code accepts it and succeeds with the
raw patch text as content — hunks are never parsed, so no overlap check
exists. -/
theorem c5_overlapping_hunks_not_detected :
    applyDiffStub "a\nb\nc\nd\n"
        "@@ -1,2 +1,2 @@\n-a\n-b\n+A\n+B\n@@ -2,2 +2,2 @@\n-b\n-c\n+X\n+Y\n"
        (some 1) =
      { success := true,
        content :=
          some "@@ -1,2 +1,2 @@\n-a\n-b\n+A\n+B\n@@ -2,2 +2,2 @@\n-b\n-c\n+X\n+Y\n",
        error := none } := by decide

/-- C6: a hunk context line `"  b"` against file line `"b"` is claimed to
match under whitespace normalization and produce the patched result
`"a\nB\nc\n"`; the code performs no matching at all, exact or fuzzy, and
the applied result is the raw diff text, not the patched content. -/
theorem c6_no_fuzzy_whitespace_matching :
    applyDiffStub "a\nb\nc\n" "-  b\n+B\n" (some 2) =
      { success := true, content := some "-  b\n+B\n", error := none } ∧
    ("-  b\n+B\n" : String) ≠ "a\nB\nc\n" := by decide

/-- C7: the line split used by the stub round-trips exactly — joining the
split of any text reproduces it byte for byte (including text without a
trailing newline), and the empty text yields zero lines. -/
theorem c7_line_split_roundtrip (x : String) :
    String.join (splitlinesKeepends x) = x ∧ splitlinesKeepends "" = [] := by
  refine ⟨?_, rfl⟩
  rw [splitlinesKeepends, join_map_mk, pySplitlines_flatten]

/-- C8: with no `start_line` hint the claim says the patch is still
resolved by content alone; the code instead fails immediately with an
error demanding `start_line`, leaving the file unchanged. -/
theorem c8_absent_start_line_fails :
    applyDiffStub "a\nb\nc\n" "B\n" none =
      { success := false, content := none,
        error := some "`start_line` is required for this simplified diff stub." } ∧
    (applyDiffFunction "f.txt" "B\n" none (some "a\nb\nc\n")).2 =
      some "a\nb\nc\n" := by decide

/-- C9: for every original content, diff text and in-range `start_line`
(`1 ≤ n ≤ line count + 1`), the stub succeeds with `content` equal to the
diff text verbatim — independent of the original content and of `n` — and
the service writes the HTML-entity-unescaped diff text as the entire new
file content. -/
theorem c9_stub_returns_diff_verbatim (original diff path : String) (n : Int)
    (h1 : 1 ≤ n) (h2 : n ≤ ((splitlinesKeepends original).length : Int) + 1) :
    applyDiffStub original diff (some n) =
      { success := true, content := some diff, error := none } ∧
    (applyDiffFunction path diff (some n) (some original)).2 =
      some (unescapeHtmlEntitiesMock diff) := by
  refine ⟨applyDiffStub_in_range original diff n h1 h2, ?_⟩
  simp only [applyDiffFunction,
    applyDiffStub_in_range original (unescapeHtmlEntitiesMock diff) n h1 h2]
  rfl

/-- Witness for C9 at original `"a\nb\nc\n"`, diff `"&lt;B&gt;"`,
`start_line = 2`. -/
theorem c9_stub_returns_diff_verbatim_witness :
    applyDiffStub "a\nb\nc\n" "&lt;B&gt;" (some 2) =
      { success := true, content := some "&lt;B&gt;", error := none } ∧
    (applyDiffFunction "f.txt" "&lt;B&gt;" (some 2) (some "a\nb\nc\n")).2 =
      some "<B>" := by
  have h := c9_stub_returns_diff_verbatim "a\nb\nc\n" "&lt;B&gt;" "f.txt" 2
    (by decide) (by decide)
  exact ⟨h.1, by rw [h.2]; decide⟩

/-- C10: the stub fails exactly when `start_line` is absent, below 1, or
above the line count plus one; the append position (line count + 1) is
accepted, and every failure is a returned result, never an exception
(the function is total by construction). -/
theorem c10_stub_failure_characterization (original diff : String)
    (sl : Option Int) :
    ((applyDiffStub original diff sl).success = false ↔
      sl = none ∨ ∃ n : Int, sl = some n ∧
        (n < 1 ∨ ((splitlinesKeepends original).length : Int) + 1 < n)) ∧
    (applyDiffStub original diff
        (some (((splitlinesKeepends original).length : Int) + 1))).success =
      true := by
  constructor
  · cases sl with
    | none => simp [applyDiffStub]
    | some n =>
      simp only [applyDiffStub]
      by_cases hc : 0 ≤ n - 1 ∧ n - 1 ≤ ((splitlinesKeepends original).length : Int)
      · rw [if_pos hc]
        simp
        omega
      · rw [if_neg hc]
        simp
        omega
  · simp only [applyDiffStub]
    rw [if_pos]
    constructor <;> omega

end Roocodez
